import Mathlib

/-!
Verification of the credit-card-validator repository: a shallow embedding of
the Luhn checksum function `luhnAlgorithm` (luhn_algorithm.go) and of the
HTTP handler `creditCardValidator` (main.go), with theorems checking the
specification's claims against it.

A Go string is a byte sequence; we model it as `List Nat` with every element
a byte value (< 256).  Go's `cardNumber[i] - '0'` is unsigned 8-bit
subtraction, so it wraps modulo 256; the subsequent `int(...)` conversion is
then exact, and all later arithmetic (`*= 2`, `-= 9`, `+=`) stays
non-negative, so `Nat` models the Go `int` faithfully on these values.
-/

namespace CCV

/-- The unchecked character-to-digit conversion `int(cardNumber[i] - '0')`:
byte subtraction of the code of the character `'0'` (48), wrapping modulo
256.  No check that the byte is an ASCII digit is performed. -/
def digitVal (c : Nat) : Nat := (c % 256 + 256 - 48) % 256

/-- One iteration of the loop body of `luhnAlgorithm`: given the running
`total`, the `isSecondDigit` flag and the current byte `c`, convert the byte
to a digit value, double it (subtracting 9 when the doubled value exceeds 9)
when the flag is set, add it to the total, and toggle the flag. -/
def luhnStep (total : Nat) (isSecondDigit : Bool) (c : Nat) : Nat × Bool :=
  let digit := digitVal c
  let digit :=
    if isSecondDigit then
      let d := digit * 2
      if d > 9 then d - 9 else d
    else digit
  (total + digit, !isSecondDigit)

/-- The loop of `luhnAlgorithm`: the Go code iterates over the card number
from its last byte to its first, threading `total` and `isSecondDigit`;
here the loop runs over the reversed byte list. -/
def luhnLoop : List Nat → Nat → Bool → Nat
  | [], total, _ => total
  | c :: rest, total, isSecondDigit =>
      let st := luhnStep total isSecondDigit c
      luhnLoop rest st.1 st.2

/-- `luhnAlgorithm` from luhn_algorithm.go: initialise `total := 0` and
`isSecondDigit := false`, run the loop over the bytes of the card number in
reverse order, and return whether `total % 10 == 0`. -/
def luhnAlgorithm (cardNumber : List Nat) : Bool :=
  luhnLoop cardNumber.reverse 0 false % 10 == 0

/-- Byte sequence of an ASCII string (every claim's concrete input is
ASCII, where the UTF-8 bytes are exactly the character codes). -/
def asciiBytes (s : String) : List Nat := s.data.map Char.toNat

/-- The Go struct `Response` of main.go: a single boolean field `valid`. -/
structure Response where
  valid : Bool
deriving DecidableEq, Repr

/-- The struct the handler decodes the request body into: a single string
field `number`, modelled as its byte sequence. -/
structure CardNumberPayload where
  number : List Nat
deriving DecidableEq, Repr

/-- An HTTP response as the handler produces it: status code, the
Content-Type header (when the handler sets one) and the body. -/
structure HTTPResponse where
  status : Nat
  contentType : Option String
  body : String
deriving DecidableEq, Repr

/-- `http.Error(writer, msg, code)`: plain-text error response with the
given status code and message body. -/
def httpError (msg : String) (code : Nat) : HTTPResponse :=
  { status := code, contentType := some "text/plain; charset=utf-8", body := msg }

/-- The JSON serialization of `Response`: `json.Marshal(Response{Valid: b})`
produces `{"valid":true}` or `{"valid":false}`. -/
def responseJson (valid : Bool) : String :=
  if valid then "\x7b\"valid\":true\x7d" else "\x7b\"valid\":false\x7d"

/-- Modelled from the spec: `json.Marshal` applied to the `Response` struct
(a single boolean field) — the spec notes serialization "should not occur
[to fail] for a boolean field under normal conditions", and Go's
encoding/json indeed never fails on a struct of one `bool` field, so the
model always succeeds with the serialized body. -/
def marshalResponse (response : Response) : Except Unit String :=
  Except.ok (responseJson response.valid)

/-- The handler `creditCardValidator` of main.go, parametrised by the
serialization function so that its error branch can be stated: check the
method is POST (else 405), branch on the outcome of decoding the body into
`CardNumberPayload` (failure: 400), run `luhnAlgorithm` on the extracted
`number`, marshal the `Response` (failure: 500), and answer 200 with
Content-Type application/json and the JSON body.

Decoding the request body is done by the Go standard library; the handler
only branches on its outcome, so the outcome (`Except.ok` payload or
`Except.error`) is the handler's input here. -/
def creditCardValidatorGen (marshal : Response → Except Unit String)
    (method : String) (body : Except Unit CardNumberPayload) : HTTPResponse :=
  if method ≠ "POST" then
    httpError "Invalid request method" 405
  else
    match body with
    | Except.error _ => httpError "Invalid JSON payload" 400
    | Except.ok cardNumber =>
      let isValid := luhnAlgorithm cardNumber.number
      let response : Response := { valid := isValid }
      match marshal response with
      | Except.error _ => httpError "Error creating response" 500
      | Except.ok jsonResponse =>
        { status := 200, contentType := some "application/json", body := jsonResponse }

/-- The handler as compiled: `creditCardValidatorGen` with the real
serialization. -/
def creditCardValidator (method : String) (body : Except Unit CardNumberPayload) :
    HTTPResponse :=
  creditCardValidatorGen marshalResponse method body

/-- The reference Luhn traversal of spec §4.1, with an explicit position
counter: the rightmost character has position 1, and at every even
position the digit value is doubled, with 9 subtracted when the doubled
value exceeds 9.  The list argument is the byte sequence already reversed
(rightmost byte first). -/
def refLuhnAux : List Nat → Nat → Nat
  | [], _ => 0
  | c :: rest, pos =>
      (if pos % 2 = 0 then
        (if digitVal c * 2 > 9 then digitVal c * 2 - 9 else digitVal c * 2)
      else digitVal c) + refLuhnAux rest (pos + 1)

/-- The total computed by the reference Luhn procedure: traverse the string
from its last character to its first, positions counted from the rightmost
as position 1, doubling at positions 2, 4, 6, …. -/
def refLuhnTotal (s : List Nat) : Nat := refLuhnAux s.reverse 1

/-- The per-byte contribution of the Luhn loop, as a function of the flag:
doubled (with the excess-9 correction) when the flag is set. -/
def luhnDigit (c : Nat) (flag : Bool) : Nat :=
  if flag then
    (if digitVal c * 2 > 9 then digitVal c * 2 - 9 else digitVal c * 2)
  else digitVal c

/-- Accumulator-free form of the Luhn loop's sum. -/
def luhnSum : List Nat → Bool → Nat
  | [], _ => 0
  | c :: rest, flag => luhnDigit c flag + luhnSum rest (!flag)

theorem luhnLoop_eq (l : List Nat) :
    ∀ total flag, luhnLoop l total flag = total + luhnSum l flag := by
  induction l with
  | nil => intro total flag; simp [luhnLoop, luhnSum]
  | cons c rest ih =>
      intro total flag
      simp only [luhnLoop, luhnSum, luhnStep, luhnDigit, ih]
      cases flag <;> simp <;> omega

theorem luhnSum_eq_refAux (l : List Nat) :
    ∀ pos, luhnSum l (decide (pos % 2 = 0)) = refLuhnAux l pos := by
  induction l with
  | nil => intro pos; simp [luhnSum, refLuhnAux]
  | cons c rest ih =>
      intro pos
      have hpar : (decide ((pos + 1) % 2 = 0)) = !(decide (pos % 2 = 0)) := by
        rcases Nat.mod_two_eq_zero_or_one pos with h | h <;>
          simp [Nat.add_mod, h]
      simp only [luhnSum, refLuhnAux, luhnDigit, ← ih, hpar]
      by_cases h : pos % 2 = 0 <;> simp [h]

theorem luhnSum_append_zero (l : List Nat) :
    ∀ flag, luhnSum (l ++ [48]) flag = luhnSum l flag := by
  induction l with
  | nil => intro flag; cases flag <;> simp [luhnSum, luhnDigit, digitVal]
  | cons c rest ih => intro flag; simp [luhnSum, ih]

theorem luhnSum_replicate_zero (n : Nat) :
    ∀ flag, luhnSum (List.replicate n 48) flag = 0 := by
  induction n with
  | zero => intro flag; simp [luhnSum]
  | succ k ih =>
      intro flag
      simp [List.replicate_succ, luhnSum, luhnDigit, digitVal, ih]

theorem handler_post_eq (card : CardNumberPayload) :
    creditCardValidator "POST" (Except.ok card) =
      { status := 200, contentType := some "application/json",
        body := responseJson (luhnAlgorithm card.number) } := rfl

theorem handler_non_post_eq (method : String) (hm : method ≠ "POST")
    (body : Except Unit CardNumberPayload) :
    creditCardValidator method body = httpError "Invalid request method" 405 := by
  unfold creditCardValidator creditCardValidatorGen
  rw [if_pos hm]

/-- C1: for every input string, `luhnAlgorithm` returns true iff the total
computed by the reference Luhn procedure — traverse from last character to
first, double the digit value at every even position counting the rightmost
as position 1, subtract 9 from a doubled value exceeding 9, sum — is
divisible by 10. -/
theorem luhn_iff_reference (s : List Nat) :
    luhnAlgorithm s = true ↔ refLuhnTotal s % 10 = 0 := by
  have h := luhnSum_eq_refAux s.reverse 1
  have h1 : (decide ((1 : Nat) % 2 = 0)) = false := rfl
  rw [h1] at h
  simp [luhnAlgorithm, luhnLoop_eq, refLuhnTotal, h]

/-- C2: for every POST request whose body decodes into the payload struct,
the handler responds 200 with Content-Type application/json and body
`{"valid": b}` where `b` is exactly `luhnAlgorithm` of the extracted
`number`; a checksum failure is still a 200 with valid false, never an
HTTP error status. -/
theorem handler_post_responds_200 (card : CardNumberPayload) :
    creditCardValidator "POST" (Except.ok card) =
      { status := 200, contentType := some "application/json",
        body := responseJson (luhnAlgorithm card.number) } :=
  handler_post_eq card

/-- C3: for every request whose method is not POST, the handler responds
405 with plain-text body "Invalid request method", independently of the
request body (so without parsing it and without invoking the validator). -/
theorem handler_non_post (method : String) (hm : method ≠ "POST")
    (body : Except Unit CardNumberPayload) :
    creditCardValidator method body = httpError "Invalid request method" 405 :=
  handler_non_post_eq method hm body

theorem handler_non_post_witness :
    "GET" ≠ "POST" ∧
      creditCardValidator "GET" (Except.ok ⟨[]⟩) =
        httpError "Invalid request method" 405 :=
  ⟨by decide, handler_non_post "GET" (by decide) (Except.ok ⟨[]⟩)⟩

/-- C4: for every POST request whose body fails to decode, the handler
responds 400 with plain-text body "Invalid JSON payload", without invoking
the validator. -/
theorem handler_bad_json (e : Unit) :
    creditCardValidator "POST" (Except.error e) =
      httpError "Invalid JSON payload" 400 := rfl

/-- C5: `luhnAlgorithm "4003600000000014"` is true and
`luhnAlgorithm "4003600000000015"` (last digit incremented) is false. -/
theorem luhn_test_vectors :
    luhnAlgorithm (asciiBytes "4003600000000014") = true ∧
      luhnAlgorithm (asciiBytes "4003600000000015") = false := by
  decide

/-- C6 counterexample: the character `/` (code 47) is not a digit, and the
digit value the algorithm computes for it is 255 — the Go byte subtraction
wraps modulo 256 — which is not the character's integer offset from `'0'`
(that offset is −1). -/
theorem luhn_digit_offset_counterexample :
    (47 < 48 ∨ 57 < 47) ∧ digitVal 47 = 255 ∧
      ¬((digitVal 47 : Int) = (47 : Int) - 48) := by
  decide

/-- C6 (amended): each character is converted by subtracting the code of
`'0'` in unsigned byte arithmetic with no validation — for a non-digit byte
`c` the value is `c - 48` when `c ≥ 48` and `c + 208` (the offset plus 256)
when `c < 48` — the algorithm proceeds with that value, and a payload
containing non-digit characters still gets a 200 response whose body
reflects the boolean `luhnAlgorithm` verdict, never an error status. -/
theorem luhn_digit_unchecked (card : CardNumberPayload) (c : Nat)
    (_hc : c ∈ card.number) (hbyte : c < 256) (_hnd : c < 48 ∨ 57 < c) :
    digitVal c = (if 48 ≤ c then c - 48 else c + 208) ∧
      (creditCardValidator "POST" (Except.ok card)).status = 200 ∧
      (creditCardValidator "POST" (Except.ok card)).body =
        responseJson (luhnAlgorithm card.number) := by
  refine ⟨?_, ?_, ?_⟩
  · by_cases h : 48 ≤ c
    · simp only [digitVal, if_pos h]; omega
    · simp only [digitVal, if_neg h]; omega
  · rw [handler_post_eq]
  · rw [handler_post_eq]

theorem luhn_digit_unchecked_witness :
    47 ∈ (CardNumberPayload.mk [52, 47]).number ∧ 47 < 256 ∧
      (47 < 48 ∨ 57 < 47) ∧
      (digitVal 47 = (if 48 ≤ 47 then 47 - 48 else 47 + 208) ∧
        (creditCardValidator "POST" (Except.ok ⟨[52, 47]⟩)).status = 200 ∧
        (creditCardValidator "POST" (Except.ok ⟨[52, 47]⟩)).body =
          responseJson (luhnAlgorithm [52, 47])) :=
  ⟨by decide, by decide, by decide,
    luhn_digit_unchecked ⟨[52, 47]⟩ 47 (by decide) (by decide) (by decide)⟩

/-- C7: `luhnAlgorithm ""` is true (total stays 0), and every all-zeros
string of any length — in particular `"0000000000000000"` — is reported
valid. -/
theorem luhn_empty_and_zeros :
    luhnAlgorithm [] = true ∧
      (∀ n, luhnAlgorithm (List.replicate n 48) = true) ∧
      luhnAlgorithm (asciiBytes "0000000000000000") = true := by
  refine ⟨by decide, ?_, by decide⟩
  intro n
  simp [luhnAlgorithm, luhnLoop_eq, List.reverse_replicate, luhnSum_replicate_zero]

/-- C8: `luhnAlgorithm` and the handler are deterministic functions of
their inputs: equal inputs give equal results, so repeated identical
requests produce identical responses (no state across calls — in the
embedding the handler is a pure function of method and decoded body). -/
theorem luhn_handler_deterministic (s t : List Nat) (hst : s = t)
    (m₁ m₂ : String) (b₁ b₂ : Except Unit CardNumberPayload)
    (hm : m₁ = m₂) (hb : b₁ = b₂) :
    luhnAlgorithm s = luhnAlgorithm t ∧
      creditCardValidator m₁ b₁ = creditCardValidator m₂ b₂ := by
  subst hst; subst hm; subst hb; exact ⟨rfl, rfl⟩

theorem luhn_handler_deterministic_witness :
    luhnAlgorithm [52] = luhnAlgorithm [52] ∧
      creditCardValidator "POST" (Except.ok ⟨[52]⟩) =
        creditCardValidator "POST" (Except.ok ⟨[52]⟩) :=
  luhn_handler_deterministic [52] [52] rfl "POST" "POST"
    (Except.ok ⟨[52]⟩) (Except.ok ⟨[52]⟩) rfl rfl

/-- C9: if serializing the response fails the handler responds 500 with
plain-text body "Error creating response"; and since serializing a single
boolean field never fails, the compiled handler never answers 500. -/
theorem serialization_failure_500 :
    (∀ (marshal : Response → Except Unit String) (card : CardNumberPayload),
        marshal { valid := luhnAlgorithm card.number } = Except.error () →
        creditCardValidatorGen marshal "POST" (Except.ok card) =
          httpError "Error creating response" 500) ∧
      (∀ (method : String) (body : Except Unit CardNumberPayload),
        (creditCardValidator method body).status ≠ 500) := by
  constructor
  · intro marshal card h
    unfold creditCardValidatorGen
    rw [if_neg (by simp)]
    simp only [h]
  · intro method body
    by_cases hm : method = "POST"
    · subst hm
      cases body with
      | error e => cases e; decide
      | ok card =>
          rw [handler_post_eq]
          simp
    · rw [handler_non_post_eq method hm body]
      decide

theorem serialization_failure_500_witness :
    creditCardValidatorGen (fun _ => Except.error ()) "POST" (Except.ok ⟨[]⟩) =
        httpError "Error creating response" 500 ∧
      (creditCardValidator "GET" (Except.ok ⟨[]⟩)).status ≠ 500 :=
  ⟨serialization_failure_500.1 (fun _ => Except.error ()) ⟨[]⟩ rfl,
    serialization_failure_500.2 "GET" (Except.ok ⟨[]⟩)⟩

/-- C10: prepending a `'0'` character (byte 48) preserves the verdict of
`luhnAlgorithm`: a leading zero contributes 0 to the total whether or not
its position is doubled. -/
theorem luhn_leading_zero (s : List Nat) :
    luhnAlgorithm (48 :: s) = luhnAlgorithm s := by
  simp [luhnAlgorithm, luhnLoop_eq, luhnSum_append_zero]

end CCV
